import Mathlib

/-
Shallow embedding of the MAST ingredient lifecycle core,
translated from src/MAST/ingredients/baseingredient.py.

The program-specific collaborators (vasp_checker, vasp_error) are not part
of the embedded core; they are modelled as oracle structures (Checker,
ErrorHandler) whose behaviour the theorems quantify over.  The dirutil lock
primitives and the VaspChecker displacement file round-trip are code of the
repository that is absent from the sources given here, so they are modelled
from the spec (marked in their doc comments).
-/

/-- Abstract token standing for a pymatgen Structure object; the
structure/physics library is an external collaborator, so only identity
matters for the embedded core. -/
structure PmgStructure where
  sid : Nat
deriving DecidableEq, Repr

/-- Python exception values that the embedded methods can raise.
mastError carries the two constructor arguments of MAST.utility.MASTError:
the class name (self.__class__.__name__) and the error string. -/
inductive PyExn where
  | mastError (classname : String) (errorstr : String)
  | keyError (key : String)
  | osError
deriving DecidableEq, Repr

/-- Program input/output artifacts on disk: the set of existing directories
and the set of existing files, named by path strings. -/
structure Artifacts where
  dirs : List String
  files : List String
deriving DecidableEq, Repr

/-- Filesystem state: artifacts plus the set of directories whose advisory
lock marker is present (the marker file is disjoint from program
artifacts). -/
structure FS where
  art : Artifacts
  locked : List String
deriving DecidableEq, Repr

/-- The keywords configuration record of an Ingredient.  Only the keys the
embedded core reads are modelled: name (job directory path), program
(dispatch string), program_keys (program directives; only the images count
is consulted by the core, so values are Nat), and child_dict (a reference
into the dict heap, mirroring that Python dicts are mutable references). -/
structure Keywords where
  name : String
  program : String
  program_keys : List (String × Nat)
  child_dict : Nat
deriving DecidableEq, Repr

/-- One Ingredient instance: its runtime class name plus its keywords. -/
structure BaseIngredient where
  classname : String
  keywords : Keywords
deriving DecidableEq, Repr

/-- Trace of the external calls a method performs, in order.  rerun and
writeFile are the effectful operations the spec says is_complete must never
perform; they are in the vocabulary so their absence from a trace is a
statement about the code, not about the type. -/
inductive Call where
  | getStructureFromFile (filepath : String)
  | forwardParentStructure (parentpath childpath newname : String)
  | forwardParentEnergy (parentpath childpath newname : String)
  | checkerIsComplete (dir : String)
  | imagesComplete (dir : String) (images : Nat)
  | pathExists (path : String)
  | errorCount (dir : String) (imageLimit : Option Nat) (count : Nat)
  | rerun (dir : String)
  | writeFile (path : String)
  | checkerIsReadyToRun (dir : String)
  | setUpProgramInput
  | setUpProgramInputNeb
  | getPathNebParentEnergy (dir : String) (images parent : Nat)
deriving DecidableEq, Repr

/-- Oracle for the program-specific checker module (vasp_checker): its
predicates are arbitrary functions of the artifacts, quantified over by the
theorems. -/
structure Checker where
  get_structure_from_file : String → PmgStructure
  is_complete : Artifacts → String → Bool
  images_complete : Artifacts → String → Nat → Bool
  is_ready_to_run : Artifacts → String → Bool
  get_path_to_write_neb_parent_energy : String → Nat → Nat → String

/-- Oracle for the program-specific error handler module (vasp_error).
loop_through_errors takes the directory and an optional image limit (the
source passes 1 in the multi-image case and no argument otherwise). -/
structure ErrorHandler where
  loop_through_errors : Artifacts → String → Option Nat → Nat

/-- Key lookup in a program_keys record. -/
def lookupKey (k : String) : List (String × Nat) → Option Nat
  | [] => none
  | (k2, v) :: rest => if k2 = k then some v else lookupKey k rest

/-- Modelled from the spec: dirutil.directory_is_locked (dirutil module is
not among the given sources).  The lock is a marker artifact inside the job
directory; this predicate reports its presence. -/
def dirutil.directory_is_locked (fs : FS) (dirname : String) : Bool :=
  decide (dirname ∈ fs.locked)

/-- Modelled from the spec: dirutil.lock_directory creates the lock marker
for the directory; at most one holder at a time, so an already-present
marker is left as is. -/
def dirutil.lock_directory (fs : FS) (dirname : String) : FS :=
  if dirname ∈ fs.locked then fs else { fs with locked := dirname :: fs.locked }

/-- Modelled from the spec: dirutil.unlock_directory removes the lock
marker for the directory. -/
def dirutil.unlock_directory (fs : FS) (dirname : String) : FS :=
  { fs with locked := fs.locked.filter (fun x => x ≠ dirname) }

/-- os.makedirs: creates the directory, raising OSError when it already
exists (the failure mode exercised by the embedded core). -/
def osMakedirs (fs : FS) (dirname : String) : Except PyExn FS :=
  if dirname ∈ fs.art.dirs then .error .osError
  else .ok { fs with art := { fs.art with dirs := dirname :: fs.art.dirs } }

/-- BaseIngredient.write_directory: os.makedirs wrapped in a handler that
catches OSError (printing "Directory exists.") and returns normally. -/
def BaseIngredient.write_directory (ing : BaseIngredient) (fs : FS) : FS :=
  match osMakedirs fs ing.keywords.name with
  | .ok fs2 => fs2
  | .error _ => fs

/-- BaseIngredient.get_structure_from_file: dispatch on keywords[program];
the vasp branch delegates to vasp_checker.get_structure_from_file. -/
def BaseIngredient.get_structure_from_file (chk : Checker) (ing : BaseIngredient)
    (filepath : String) : Except PyExn (PmgStructure × List Call) :=
  if ing.keywords.program = "vasp" then
    .ok (chk.get_structure_from_file filepath, [Call.getStructureFromFile filepath])
  else
    .error (.mastError ing.classname "Program not recognized (in get_structure_from_file)")

/-- BaseIngredient.forward_parent_structure: vasp branch delegates to
vasp_checker.forward_parent_structure and returns None. -/
def BaseIngredient.forward_parent_structure (ing : BaseIngredient)
    (parentpath childpath newname : String) : Except PyExn (List Call) :=
  if ing.keywords.program = "vasp" then
    .ok [Call.forwardParentStructure parentpath childpath newname]
  else
    .error (.mastError ing.classname "Program not recognized (in forward_parent_structure)")

/-- BaseIngredient.forward_parent_energy: vasp branch delegates to
vasp_checker.forward_parent_energy; the error branch reuses, verbatim, the
message of forward_parent_structure (source lines 46-47). -/
def BaseIngredient.forward_parent_energy (ing : BaseIngredient)
    (parentpath childpath newname : String) : Except PyExn (List Call) :=
  if ing.keywords.program = "vasp" then
    .ok [Call.forwardParentEnergy parentpath childpath newname]
  else
    .error (.mastError ing.classname "Program not recognized (in forward_parent_structure)")

/-- BaseIngredient.is_complete: vasp branch asks the checker (the
multi-image form when program_keys has an images count, probing sub-
directory 01), falls back to a read-only error scan when the run has
started but is incomplete, and never performs a rerun or a write (the
source comments out self.run() with an explicit NO). -/
def BaseIngredient.is_complete (chk : Checker) (eh : ErrorHandler)
    (ing : BaseIngredient) (fs : FS) : Except PyExn (Bool × List Call) :=
  if ing.keywords.program = "vasp" then
    match lookupKey "images" ing.keywords.program_keys with
    | some n =>
      let mycomplete := chk.images_complete fs.art ing.keywords.name n
      let usepath := ing.keywords.name ++ "/01"
      if mycomplete then
        .ok (mycomplete, [Call.imagesComplete ing.keywords.name n])
      else if (usepath ++ "/OUTCAR") ∉ fs.art.files then
        .ok (false, [Call.imagesComplete ing.keywords.name n,
                     Call.pathExists (usepath ++ "/OUTCAR")])
      else
        let errct := eh.loop_through_errors fs.art usepath (some 1)
        -- source: if errct > 0: pass  (automatic rerun declined)
        .ok (false, [Call.imagesComplete ing.keywords.name n,
                     Call.pathExists (usepath ++ "/OUTCAR"),
                     Call.errorCount usepath (some 1) errct])
    | none =>
      let usepath := ing.keywords.name
      let mycomplete := chk.is_complete fs.art usepath
      if mycomplete then
        .ok (mycomplete, [Call.checkerIsComplete usepath])
      else if (usepath ++ "/OUTCAR") ∉ fs.art.files then
        .ok (false, [Call.checkerIsComplete usepath,
                     Call.pathExists (usepath ++ "/OUTCAR")])
      else
        let errct := eh.loop_through_errors fs.art usepath none
        .ok (false, [Call.checkerIsComplete usepath,
                     Call.pathExists (usepath ++ "/OUTCAR"),
                     Call.errorCount usepath none errct])
  else
    .error (.mastError ing.classname "Program not recognized (in is_complete)")

/-- BaseIngredient.directory_is_locked: delegates to dirutil on the job
directory. -/
def BaseIngredient.directory_is_locked (ing : BaseIngredient) (fs : FS) : Bool :=
  dirutil.directory_is_locked fs ing.keywords.name

/-- BaseIngredient.lock_directory: delegates to dirutil. -/
def BaseIngredient.lock_directory (ing : BaseIngredient) (fs : FS) : FS :=
  dirutil.lock_directory fs ing.keywords.name

/-- BaseIngredient.unlock_directory: delegates to dirutil. -/
def BaseIngredient.unlock_directory (ing : BaseIngredient) (fs : FS) : FS :=
  dirutil.unlock_directory fs ing.keywords.name

/-- BaseIngredient.is_ready_to_run: false when the directory is locked
(before any program dispatch); otherwise dispatch on program, the vasp
branch delegating to vasp_checker.is_ready_to_run.  The error branch
message names is_complete (source line 97). -/
def BaseIngredient.is_ready_to_run (chk : Checker) (ing : BaseIngredient)
    (fs : FS) : Except PyExn (Bool × List Call) :=
  if BaseIngredient.directory_is_locked ing fs then
    .ok (false, [])
  else if ing.keywords.program = "vasp" then
    .ok (chk.is_ready_to_run fs.art ing.keywords.name,
         [Call.checkerIsReadyToRun ing.keywords.name])
  else
    .error (.mastError ing.classname "Program not recognized (in is_complete)")

/-- BaseIngredient.set_up_program_input: vasp branch delegates to
vasp_checker.set_up_program_input(self.keywords). -/
def BaseIngredient.set_up_program_input (ing : BaseIngredient) :
    Except PyExn (List Call) :=
  if ing.keywords.program = "vasp" then
    .ok [Call.setUpProgramInput]
  else
    .error (.mastError ing.classname "Program not recognized (in set_up_program_input)")

/-- BaseIngredient.get_path_to_write_neb_parent_energy: vasp branch reads
program_keys[images] (a KeyError when absent) and delegates to the
checker. -/
def BaseIngredient.get_path_to_write_neb_parent_energy (chk : Checker)
    (ing : BaseIngredient) (parent : Nat) : Except PyExn (String × List Call) :=
  if ing.keywords.program = "vasp" then
    match lookupKey "images" ing.keywords.program_keys with
    | some n =>
        .ok (chk.get_path_to_write_neb_parent_energy ing.keywords.name n parent,
             [Call.getPathNebParentEnergy ing.keywords.name n parent])
    | none => .error (.keyError "images")
  else
    .error (.mastError ing.classname
      "Program not recognized (in get_path_to_write_neb_parent_energy)")

/-- BaseIngredient.set_up_program_input_neb: vasp branch delegates to
vasp_checker.set_up_program_input_neb; the error message abbreviates the
method name to set_up_neb (source line 153). -/
def BaseIngredient.set_up_program_input_neb (ing : BaseIngredient)
    (image_structures : List PmgStructure) : Except PyExn (List Call) :=
  if ing.keywords.program = "vasp" then
    .ok [Call.setUpProgramInputNeb]
  else
    .error (.mastError ing.classname "Program not recognized (in set_up_neb)")

/-- Oracle for the submit module: the two shell command strings and whether
launching a given command raises (subprocess.Popen can raise OSError; a
nonzero exit status does not raise). -/
structure Submitter where
  direct_shell_command : String
  queue_submission_command : String
  popenRaises : String → Bool

/-- Process-wide state that run manipulates: the current working
directory. -/
structure ProcState where
  cwd : String
deriving DecidableEq, Repr

/-- BaseIngredient.run(mode, curdir): the curdir parameter is immediately
shadowed by curdir = os.getcwd(); the process chdirs into the job directory
(assumed to exist, so chdir succeeds), launches the mode-selected command
and waits, then chdirs back.  There is no handler around the launch: if
Popen raises, the exception propagates with the working directory left at
the job directory.  Returns the final process state and the escaped
exception, if any. -/
def BaseIngredient.run (sub : Submitter) (ing : BaseIngredient)
    (mode : String) (curdirArg : String) (st : ProcState) :
    ProcState × Option PyExn :=
  let curdir := st.cwd
  let stJob : ProcState := { cwd := ing.keywords.name }
  if mode = "noqsub" then
    if sub.popenRaises sub.direct_shell_command then (stJob, some .osError)
    else ({ cwd := curdir }, none)
  else if mode = "serial" then
    if sub.popenRaises sub.queue_submission_command then (stJob, some .osError)
    else ({ cwd := curdir }, none)
  else ({ cwd := curdir }, none)

/-- Contents of one Python dict mapping child-role labels to child
references. -/
abbrev ChildDict := List (String × Nat)

/-- Heap of allocated Python dicts, addressed by reference.  A new binding
is prepended, so lookup finds the most recent allocation for a
reference. -/
abbrev DictHeap := List (Nat × ChildDict)

/-- Dereference a dict; an unallocated reference (Python None child_dict)
behaves as the empty, falsy value. -/
def heapGet (h : DictHeap) (r : Nat) : ChildDict :=
  match h with
  | [] => []
  | (r2, d) :: rest => if r2 = r then d else heapGet rest r

/-- Store new contents for a reference (models in-place dict mutation or a
fresh allocation). -/
def heapSet (h : DictHeap) (r : Nat) (d : ChildDict) : DictHeap :=
  (r, d) :: h

/-- A reference unused by any allocation in the heap. -/
def freshRef (h : DictHeap) : Nat :=
  (h.map Prod.fst).foldr max 0 + 1

/-- BaseIngredient.get_children: if keywords[child_dict] is falsy (empty or
None) return None, else return child_dict.copy() - a newly allocated dict
holding the same entries.  Returns the heap after the copy allocation and
the returned reference. -/
def BaseIngredient.get_children (h : DictHeap) (ing : BaseIngredient) :
    DictHeap × Option Nat :=
  let d := heapGet h ing.keywords.child_dict
  if d = [] then (h, none)
  else
    let r := freshRef h
    (heapSet h r d, some r)

/-- A displacement payload: rows of integer-coded displacement entries (the
exact numeric semantics belong to the external physics library). -/
abbrev Displacement := List (List Nat)

/-- Serialized displacement artifact: a stream of numeric fields (some k)
separated by row breaks (none). -/
abbrev DispFile := List (Option Nat)

/-- Join payload rows into the serialized field stream, one row break
between consecutive rows. -/
def joinRows : Displacement → DispFile
  | [] => []
  | [r] => r.map some
  | r :: rs => r.map some ++ none :: joinRows rs

/-- Split a serialized field stream back into payload rows at the row
breaks. -/
def splitRows : DispFile → Displacement
  | [] => [[]]
  | some k :: ts =>
    match splitRows ts with
    | [] => [[k]]
    | r :: rs => (k :: r) :: rs
  | none :: ts => [] :: splitRows ts

/-- Displacement artifact store: directory path to serialized artifact
contents. -/
abbrev DispFS := List (String × DispFile)

/-- Look up the displacement artifact of a directory (empty when absent). -/
def dispGet (dfs : DispFS) (dirname : String) : DispFile :=
  match dfs with
  | [] => []
  | (d2, c) :: rest => if d2 = dirname then c else dispGet rest dirname

/-- Modelled from the spec: VaspChecker.write_my_displacement_file (the
vaspchecker module is not among the given sources) serializes the
displacement payload into the displacement artifact of the directory. -/
def VaspChecker.write_my_displacement_file (dfs : DispFS) (dirname : String)
    (x : Displacement) : DispFS :=
  (dirname, joinRows x) :: dfs

/-- Modelled from the spec: VaspChecker.read_my_displacement_file parses
the displacement artifact of the directory back into a payload. -/
def VaspChecker.read_my_displacement_file (dfs : DispFS) (dirname : String) :
    Displacement :=
  splitRows (dispGet dfs dirname)

/-- Does a method outcome consist of raising a MASTError (the configuration
error), as opposed to returning a value or raising another exception? -/
def raisesMASTError {α : Type} : Except PyExn α → Bool
  | .error (.mastError _ _) => true
  | _ => false

/-- A concrete checker oracle used to instantiate witnesses. -/
def chk0 : Checker where
  get_structure_from_file := fun _ => ⟨0⟩
  is_complete := fun _ _ => false
  images_complete := fun _ _ _ => false
  is_ready_to_run := fun _ _ => true
  get_path_to_write_neb_parent_energy := fun d _ _ => d

/-- A concrete error handler oracle reporting two matched signatures. -/
def eh0 : ErrorHandler where
  loop_through_errors := fun _ _ _ => 2

/-- An ingredient configured with an unrecognized program value. -/
def badIng : BaseIngredient :=
  { classname := "BaseIngredient",
    keywords := { name := "jobdir", program := "lammps", program_keys := [], child_dict := 0 } }

/-- An ingredient configured for the registered vasp variant. -/
def vaspIng : BaseIngredient :=
  { classname := "BaseIngredient",
    keywords := { name := "jobdir", program := "vasp", program_keys := [], child_dict := 0 } }

/-- A vasp ingredient with a two-image count in program_keys. -/
def nebIng : BaseIngredient :=
  { classname := "BaseIngredient",
    keywords := { name := "jobdir", program := "vasp",
                  program_keys := [("images", 2)], child_dict := 0 } }

/-- The empty filesystem. -/
def fs0 : FS := { art := { dirs := [], files := [] }, locked := [] }

/-- A filesystem in which the single-directory job has started (OUTCAR
present). -/
def fs1 : FS := { art := { dirs := ["jobdir"], files := ["jobdir/OUTCAR"] }, locked := [] }

/-- A filesystem in which image 01 of the multi-image job has started. -/
def fs2 : FS := { art := { dirs := ["jobdir"], files := ["jobdir/01/OUTCAR"] }, locked := [] }

/-- A submitter whose launch step always raises. -/
def subRaise : Submitter :=
  { direct_shell_command := "vasp", queue_submission_command := "qsub me.sh",
    popenRaises := fun _ => true }

/-- A submitter whose launch step never raises. -/
def subOk : Submitter :=
  { direct_shell_command := "vasp", queue_submission_command := "qsub me.sh",
    popenRaises := fun _ => false }

/-- A heap with one allocated child dict at reference 5. -/
def heap1 : DictHeap := [(5, [("child1", 7)])]

/-- An ingredient whose child_dict reference points at heap1's dict. -/
def ing5 : BaseIngredient :=
  { classname := "BaseIngredient",
    keywords := { name := "jobdir", program := "vasp", program_keys := [], child_dict := 5 } }

/-- Claim C1: for every Ingredient whose program value is not the
registered vasp variant, each program-dependent operation -
get_structure_from_file, forward_parent_structure, forward_parent_energy,
is_complete, set_up_program_input, set_up_program_input_neb,
get_path_to_write_neb_parent_energy, and is_ready_to_run on an unlocked
directory - fails by raising MASTError. -/
theorem claim_C1 (chk : Checker) (eh : ErrorHandler) (ing : BaseIngredient)
    (fs : FS) (filepath pp cp nn : String) (imgs : List PmgStructure) (parent : Nat)
    (hp : ing.keywords.program ≠ "vasp")
    (hunlock : BaseIngredient.directory_is_locked ing fs = false) :
    raisesMASTError (BaseIngredient.get_structure_from_file chk ing filepath) = true ∧
    raisesMASTError (BaseIngredient.forward_parent_structure ing pp cp nn) = true ∧
    raisesMASTError (BaseIngredient.forward_parent_energy ing pp cp nn) = true ∧
    raisesMASTError (BaseIngredient.is_complete chk eh ing fs) = true ∧
    raisesMASTError (BaseIngredient.set_up_program_input ing) = true ∧
    raisesMASTError (BaseIngredient.set_up_program_input_neb ing imgs) = true ∧
    raisesMASTError (BaseIngredient.get_path_to_write_neb_parent_energy chk ing parent) = true ∧
    raisesMASTError (BaseIngredient.is_ready_to_run chk ing fs) = true := by
  refine ⟨?_, ?_, ?_, ?_, ?_, ?_, ?_, ?_⟩
  · simp [BaseIngredient.get_structure_from_file, hp, raisesMASTError]
  · simp [BaseIngredient.forward_parent_structure, hp, raisesMASTError]
  · simp [BaseIngredient.forward_parent_energy, hp, raisesMASTError]
  · simp [BaseIngredient.is_complete, hp, raisesMASTError]
  · simp [BaseIngredient.set_up_program_input, hp, raisesMASTError]
  · simp [BaseIngredient.set_up_program_input_neb, hp, raisesMASTError]
  · simp [BaseIngredient.get_path_to_write_neb_parent_energy, hp, raisesMASTError]
  · simp [BaseIngredient.is_ready_to_run, hunlock, hp, raisesMASTError]

/-- Claim C1 witness: the hypotheses are satisfiable - an ingredient with
program lammps and an empty, unlocked filesystem - and all eight
operations raise MASTError there. -/
theorem claim_C1_witness :
    (badIng.keywords.program ≠ "vasp" ∧
     BaseIngredient.directory_is_locked badIng fs0 = false) ∧
    raisesMASTError (BaseIngredient.get_structure_from_file chk0 badIng "f") = true ∧
    raisesMASTError (BaseIngredient.forward_parent_structure badIng "p" "c" "POSCAR") = true ∧
    raisesMASTError (BaseIngredient.forward_parent_energy badIng "p" "c" "OSZICAR") = true ∧
    raisesMASTError (BaseIngredient.is_complete chk0 eh0 badIng fs0) = true ∧
    raisesMASTError (BaseIngredient.set_up_program_input badIng) = true ∧
    raisesMASTError (BaseIngredient.set_up_program_input_neb badIng []) = true ∧
    raisesMASTError (BaseIngredient.get_path_to_write_neb_parent_energy chk0 badIng 1) = true ∧
    raisesMASTError (BaseIngredient.is_ready_to_run chk0 badIng fs0) = true :=
  ⟨⟨by decide, by decide⟩,
   claim_C1 chk0 eh0 badIng fs0 "f" "p" "c" "POSCAR" [] 1 (by decide) (by decide)⟩

/-- Claim C6: the configuration errors raised by forward_parent_energy and
by is_ready_to_run do not name the invoked method - forward_parent_energy
raises the message naming forward_parent_structure, and is_ready_to_run
raises the message naming is_complete - contradicting the stated rule,
which all the sibling methods follow. -/
theorem claim_C6_eval :
    BaseIngredient.forward_parent_energy badIng "parentdir" "childdir" "OSZICAR"
      = .error (.mastError "BaseIngredient"
          "Program not recognized (in forward_parent_structure)") ∧
    BaseIngredient.is_ready_to_run chk0 badIng fs0
      = .error (.mastError "BaseIngredient"
          "Program not recognized (in is_complete)") :=
  ⟨rfl, rfl⟩

/-- Claim C8: write_directory never raises (the OSError from an existing
directory is caught and reported), leaves the directory present, and a
second call on the same path changes nothing. -/
theorem claim_C8 (ing : BaseIngredient) (fs : FS) :
    ing.keywords.name ∈ (BaseIngredient.write_directory ing fs).art.dirs ∧
    BaseIngredient.write_directory ing (BaseIngredient.write_directory ing fs)
      = BaseIngredient.write_directory ing fs := by
  by_cases h : ing.keywords.name ∈ fs.art.dirs
  · simp [BaseIngredient.write_directory, osMakedirs, h]
  · simp [BaseIngredient.write_directory, osMakedirs, h]

/-- Claim C10: run ignores its curdir argument - the saved-and-restored
directory is always the working directory current at entry, so calls
differing only in that argument are indistinguishable. -/
theorem claim_C10 (sub : Submitter) (ing : BaseIngredient) (mode : String)
    (c1 c2 : String) (st : ProcState) :
    BaseIngredient.run sub ing mode c1 st = BaseIngredient.run sub ing mode c2 st := rfl

theorem lock_directory_art (fs : FS) (d : String) :
    (dirutil.lock_directory fs d).art = fs.art := by
  unfold dirutil.lock_directory
  split <;> rfl

theorem unlock_directory_art (fs : FS) (d : String) :
    (dirutil.unlock_directory fs d).art = fs.art := rfl

theorem locked_after_lock (fs : FS) (d : String) :
    dirutil.directory_is_locked (dirutil.lock_directory fs d) d = true := by
  unfold dirutil.directory_is_locked dirutil.lock_directory
  split <;> simp_all

theorem unlocked_after_unlock (fs : FS) (d : String) :
    dirutil.directory_is_locked (dirutil.unlock_directory fs d) d = false := by
  unfold dirutil.directory_is_locked dirutil.unlock_directory
  simp

/-- Claim C2: after lock_directory the lock predicate holds and
is_ready_to_run is false with an empty call trace (the checker readiness
predicate is not consulted); after unlock_directory the lock predicate is
false, the artifacts are exactly as before locking, and is_ready_to_run
returns precisely the checker readiness verdict over those artifacts. -/
theorem claim_C2 (chk : Checker) (ing : BaseIngredient) (fs : FS)
    (hp : ing.keywords.program = "vasp") :
    BaseIngredient.directory_is_locked ing (BaseIngredient.lock_directory ing fs) = true ∧
    BaseIngredient.is_ready_to_run chk ing (BaseIngredient.lock_directory ing fs)
      = .ok (false, []) ∧
    BaseIngredient.directory_is_locked ing
      (BaseIngredient.unlock_directory ing (BaseIngredient.lock_directory ing fs)) = false ∧
    (BaseIngredient.unlock_directory ing (BaseIngredient.lock_directory ing fs)).art = fs.art ∧
    BaseIngredient.is_ready_to_run chk ing
      (BaseIngredient.unlock_directory ing (BaseIngredient.lock_directory ing fs))
      = .ok (chk.is_ready_to_run fs.art ing.keywords.name,
             [Call.checkerIsReadyToRun ing.keywords.name]) := by
  have hart : (BaseIngredient.unlock_directory ing (BaseIngredient.lock_directory ing fs)).art
      = fs.art := by
    unfold BaseIngredient.unlock_directory BaseIngredient.lock_directory
    rw [unlock_directory_art, lock_directory_art]
  refine ⟨locked_after_lock fs ing.keywords.name, ?_, unlocked_after_unlock _ _, hart, ?_⟩
  · unfold BaseIngredient.is_ready_to_run
    rw [show BaseIngredient.directory_is_locked ing (BaseIngredient.lock_directory ing fs)
          = true from locked_after_lock fs ing.keywords.name]
    rfl
  · unfold BaseIngredient.is_ready_to_run
    rw [show BaseIngredient.directory_is_locked ing
          (BaseIngredient.unlock_directory ing (BaseIngredient.lock_directory ing fs))
          = false from unlocked_after_unlock _ _]
    simp [hp, hart]

/-- Claim C2 witness: instantiated at the concrete vasp ingredient, the
empty filesystem, and the chk0 oracle (whose readiness verdict is true). -/
theorem claim_C2_witness :
    vaspIng.keywords.program = "vasp" ∧
    BaseIngredient.directory_is_locked vaspIng (BaseIngredient.lock_directory vaspIng fs0) = true ∧
    BaseIngredient.is_ready_to_run chk0 vaspIng (BaseIngredient.lock_directory vaspIng fs0)
      = .ok (false, []) ∧
    BaseIngredient.directory_is_locked vaspIng
      (BaseIngredient.unlock_directory vaspIng (BaseIngredient.lock_directory vaspIng fs0)) = false ∧
    (BaseIngredient.unlock_directory vaspIng (BaseIngredient.lock_directory vaspIng fs0)).art
      = fs0.art ∧
    BaseIngredient.is_ready_to_run chk0 vaspIng
      (BaseIngredient.unlock_directory vaspIng (BaseIngredient.lock_directory vaspIng fs0))
      = .ok (chk0.is_ready_to_run fs0.art vaspIng.keywords.name,
             [Call.checkerIsReadyToRun vaspIng.keywords.name]) :=
  ⟨rfl, claim_C2 chk0 vaspIng fs0 rfl⟩

/-- Claim C5 counterexample: when the launch step raises, run does not
restore the prior working directory - the process is left in the job
directory and the exception escapes - refuting the claim that the prior
directory is restored unconditionally, including when the invoked
subprocess step raises. -/
theorem claim_C5_counterexample :
    (BaseIngredient.run subRaise badIng "serial" "/home/user" { cwd := "/home/user" }).2
      = some PyExn.osError ∧
    (BaseIngredient.run subRaise badIng "serial" "/home/user" { cwd := "/home/user" }).1.cwd
      = "jobdir" ∧
    "jobdir" ≠ "/home/user" :=
  ⟨rfl, rfl, by decide⟩

/-- Claim C5 (amended): whenever run finishes without an exception - which
includes a launched command exiting with failure status, since Popen and
wait do not raise on nonzero exit - the working directory current at entry
is restored; when the launch raises, the exception propagates and the
working directory is left at the job directory. -/
theorem claim_C5 (sub : Submitter) (ing : BaseIngredient)
    (mode curdirArg : String) (st : ProcState)
    (h : (BaseIngredient.run sub ing mode curdirArg st).2 = none) :
    (BaseIngredient.run sub ing mode curdirArg st).1.cwd = st.cwd := by
  unfold BaseIngredient.run at h ⊢
  split_ifs at h ⊢ <;> simp_all

/-- Claim C5 witness: with a non-raising submitter the hypothesis holds and
the entry directory is restored. -/
theorem claim_C5_witness :
    (BaseIngredient.run subOk badIng "serial" "xyz" { cwd := "/home/user" }).2 = none ∧
    (BaseIngredient.run subOk badIng "serial" "xyz" { cwd := "/home/user" }).1.cwd
      = "/home/user" :=
  ⟨rfl, claim_C5 subOk badIng "serial" "xyz" { cwd := "/home/user" } rfl⟩

/-- Claim C3: for every vasp ingredient whose applicable checker verdict is
incomplete, is_complete returns false; when the probed OUTCAR is absent the
error handler is never consulted; when it is present the failure-signature
count is obtained, yet whatever the count, the result is still false and
the trace holds no rerun and no file write. -/
theorem claim_C3 (chk : Checker) (eh : ErrorHandler) (ing : BaseIngredient) (fs : FS)
    (hp : ing.keywords.program = "vasp")
    (hinc : (match lookupKey "images" ing.keywords.program_keys with
             | some n => chk.images_complete fs.art ing.keywords.name n
             | none => chk.is_complete fs.art ing.keywords.name) = false) :
    ∃ tr, BaseIngredient.is_complete chk eh ing fs = .ok (false, tr) ∧
      (∀ d, Call.rerun d ∉ tr) ∧
      (∀ p, Call.writeFile p ∉ tr) ∧
      ((match lookupKey "images" ing.keywords.program_keys with
        | some _ => ing.keywords.name ++ "/01"
        | none => ing.keywords.name) ++ "/OUTCAR" ∉ fs.art.files →
         ∀ d l c, Call.errorCount d l c ∉ tr) ∧
      ((match lookupKey "images" ing.keywords.program_keys with
        | some _ => ing.keywords.name ++ "/01"
        | none => ing.keywords.name) ++ "/OUTCAR" ∈ fs.art.files →
         ∃ l, Call.errorCount
            ((match lookupKey "images" ing.keywords.program_keys with
              | some _ => ing.keywords.name ++ "/01"
              | none => ing.keywords.name)) l
            (eh.loop_through_errors fs.art
              (match lookupKey "images" ing.keywords.program_keys with
               | some _ => ing.keywords.name ++ "/01"
               | none => ing.keywords.name) l) ∈ tr) := by
  rcases hk : lookupKey "images" ing.keywords.program_keys with _ | n <;>
    simp only [hk] at hinc ⊢
  · by_cases ho : ing.keywords.name ++ "/OUTCAR" ∈ fs.art.files
    · refine ⟨[Call.checkerIsComplete ing.keywords.name,
               Call.pathExists (ing.keywords.name ++ "/OUTCAR"),
               Call.errorCount ing.keywords.name none
                 (eh.loop_through_errors fs.art ing.keywords.name none)],
        ?_, ?_, ?_, ?_, ?_⟩
      · simp [BaseIngredient.is_complete, hp, hk, hinc, ho]
      · intro d; simp
      · intro p; simp
      · intro hno; exact absurd ho hno
      · intro _; exact ⟨none, by simp⟩
    · refine ⟨[Call.checkerIsComplete ing.keywords.name,
               Call.pathExists (ing.keywords.name ++ "/OUTCAR")], ?_, ?_, ?_, ?_, ?_⟩
      · simp [BaseIngredient.is_complete, hp, hk, hinc, ho]
      · intro d; simp
      · intro p; simp
      · intro _; intro d l c; simp
      · intro habs; exact absurd habs ho
  · by_cases ho : (ing.keywords.name ++ "/01") ++ "/OUTCAR" ∈ fs.art.files
    · refine ⟨[Call.imagesComplete ing.keywords.name n,
               Call.pathExists ((ing.keywords.name ++ "/01") ++ "/OUTCAR"),
               Call.errorCount (ing.keywords.name ++ "/01") (some 1)
                 (eh.loop_through_errors fs.art (ing.keywords.name ++ "/01") (some 1))],
        ?_, ?_, ?_, ?_, ?_⟩
      · simp [BaseIngredient.is_complete, hp, hk, hinc, ho]
      · intro d; simp
      · intro p; simp
      · intro hno; exact absurd ho hno
      · intro _; exact ⟨some 1, by simp⟩
    · refine ⟨[Call.imagesComplete ing.keywords.name n,
               Call.pathExists ((ing.keywords.name ++ "/01") ++ "/OUTCAR")], ?_, ?_, ?_, ?_, ?_⟩
      · simp [BaseIngredient.is_complete, hp, hk, hinc, ho]
      · intro d; simp
      · intro p; simp
      · intro _; intro d l c; simp
      · intro habs; exact absurd habs ho

/-- Claim C3 witness: the single-directory vasp ingredient on a filesystem
where the job has started (OUTCAR present) but the checker reports
incomplete. -/
theorem claim_C3_witness :
    chk0.is_complete fs1.art "jobdir" = false ∧
    ∃ tr, BaseIngredient.is_complete chk0 eh0 vaspIng fs1 = .ok (false, tr) ∧
      (∀ d, Call.rerun d ∉ tr) ∧
      (∀ p, Call.writeFile p ∉ tr) ∧
      ("jobdir" ++ "/OUTCAR" ∉ fs1.art.files → ∀ d l c, Call.errorCount d l c ∉ tr) ∧
      ("jobdir" ++ "/OUTCAR" ∈ fs1.art.files →
        ∃ l, Call.errorCount "jobdir" l (eh0.loop_through_errors fs1.art "jobdir" l) ∈ tr) :=
  ⟨rfl, claim_C3 chk0 eh0 vaspIng fs1 rfl rfl⟩

/-- Claim C4: for every vasp ingredient carrying an images count N,
is_complete returns exactly the checker verdict images_complete over the
job directory and N (so it is never true unless the images completion
markers satisfy the checker); when that verdict is incomplete, the OUTCAR
probe and the one-image-restricted error scan both use the representative
sub-directory 01. -/
theorem claim_C4 (chk : Checker) (eh : ErrorHandler) (ing : BaseIngredient)
    (fs : FS) (n : Nat)
    (hp : ing.keywords.program = "vasp")
    (hi : lookupKey "images" ing.keywords.program_keys = some n) :
    ∃ tr, BaseIngredient.is_complete chk eh ing fs
        = .ok (chk.images_complete fs.art ing.keywords.name n, tr) ∧
      (chk.images_complete fs.art ing.keywords.name n = false →
        ((ing.keywords.name ++ "/01") ++ "/OUTCAR" ∉ fs.art.files →
           Call.pathExists ((ing.keywords.name ++ "/01") ++ "/OUTCAR") ∈ tr ∧
           ∀ d l c, Call.errorCount d l c ∉ tr) ∧
        ((ing.keywords.name ++ "/01") ++ "/OUTCAR" ∈ fs.art.files →
           Call.errorCount (ing.keywords.name ++ "/01") (some 1)
             (eh.loop_through_errors fs.art (ing.keywords.name ++ "/01") (some 1)) ∈ tr)) := by
  by_cases hc : chk.images_complete fs.art ing.keywords.name n
  · refine ⟨[Call.imagesComplete ing.keywords.name n], ?_, ?_⟩
    · simp [BaseIngredient.is_complete, hp, hi, hc]
    · intro habs; rw [hc] at habs; cases habs
  · by_cases ho : (ing.keywords.name ++ "/01") ++ "/OUTCAR" ∈ fs.art.files
    · refine ⟨[Call.imagesComplete ing.keywords.name n,
               Call.pathExists ((ing.keywords.name ++ "/01") ++ "/OUTCAR"),
               Call.errorCount (ing.keywords.name ++ "/01") (some 1)
                 (eh.loop_through_errors fs.art (ing.keywords.name ++ "/01") (some 1))],
        ?_, ?_⟩
      · simp [BaseIngredient.is_complete, hp, hi, hc, ho]
      · exact fun _ => ⟨fun hno => absurd ho hno, fun _ => by simp⟩
    · refine ⟨[Call.imagesComplete ing.keywords.name n,
               Call.pathExists ((ing.keywords.name ++ "/01") ++ "/OUTCAR")], ?_, ?_⟩
      · simp [BaseIngredient.is_complete, hp, hi, hc, ho]
      · exact fun _ => ⟨fun _ => ⟨by simp, fun d l c => by simp⟩, fun habs => absurd habs ho⟩

/-- Claim C4 witness: the two-image vasp ingredient on a filesystem where
image 01 has started but the checker reports the images incomplete. -/
theorem claim_C4_witness :
    lookupKey "images" nebIng.keywords.program_keys = some 2 ∧
    ∃ tr, BaseIngredient.is_complete chk0 eh0 nebIng fs2
        = .ok (chk0.images_complete fs2.art "jobdir" 2, tr) ∧
      (chk0.images_complete fs2.art "jobdir" 2 = false →
        (("jobdir" ++ "/01") ++ "/OUTCAR" ∉ fs2.art.files →
           Call.pathExists (("jobdir" ++ "/01") ++ "/OUTCAR") ∈ tr ∧
           ∀ d l c, Call.errorCount d l c ∉ tr) ∧
        (("jobdir" ++ "/01") ++ "/OUTCAR" ∈ fs2.art.files →
           Call.errorCount ("jobdir" ++ "/01") (some 1)
             (eh0.loop_through_errors fs2.art ("jobdir" ++ "/01") (some 1)) ∈ tr)) :=
  ⟨rfl, claim_C4 chk0 eh0 nebIng fs2 2 rfl rfl⟩

theorem splitRows_map_some (r : List Nat) : splitRows (r.map some) = [r] := by
  induction r with
  | nil => rfl
  | cons k t ih => simp [splitRows, ih]

theorem splitRows_append_break (r : List Nat) (ts : DispFile) :
    splitRows (r.map some ++ none :: ts) = r :: splitRows ts := by
  induction r with
  | nil => rfl
  | cons k t ih => simp [splitRows, ih]

theorem splitRows_joinRows (x : Displacement) (hx : x ≠ []) :
    splitRows (joinRows x) = x := by
  induction x with
  | nil => exact absurd rfl hx
  | cons r rs ih =>
    cases rs with
    | nil => simp [joinRows, splitRows_map_some]
    | cons r2 rs2 =>
      rw [show joinRows (r :: r2 :: rs2) = r.map some ++ none :: joinRows (r2 :: rs2) from rfl,
          splitRows_append_break, ih (List.cons_ne_nil _ _)]

/-- Claim C7: writing a valid (nonempty) displacement payload into a
directory and reading it back from that directory yields the payload
unchanged. -/
theorem claim_C7 (dfs : DispFS) (dirname : String) (x : Displacement)
    (hx : x ≠ []) :
    VaspChecker.read_my_displacement_file
      (VaspChecker.write_my_displacement_file dfs dirname x) dirname = x := by
  unfold VaspChecker.read_my_displacement_file VaspChecker.write_my_displacement_file
  simp [dispGet, splitRows_joinRows x hx]

/-- Claim C7 witness: a concrete two-row payload round-trips through an
initially empty artifact store. -/
theorem claim_C7_witness :
    ([[1, 2], [3]] : Displacement) ≠ [] ∧
    VaspChecker.read_my_displacement_file
      (VaspChecker.write_my_displacement_file [] "dynamics" [[1, 2], [3]]) "dynamics"
      = [[1, 2], [3]] :=
  ⟨by simp, claim_C7 [] "dynamics" [[1, 2], [3]] (by simp)⟩

theorem le_foldr_max (l : List Nat) (r : Nat) (hr : r ∈ l) :
    r ≤ l.foldr max 0 := by
  induction l with
  | nil => cases hr
  | cons a t ih =>
    rcases hr with _ | hr
    · exact le_max_left _ _
    · exact le_trans (ih (by assumption)) (le_max_right _ _)

theorem mem_lt_freshRef (h : DictHeap) (r : Nat) (hr : r ∈ h.map Prod.fst) :
    r < freshRef h := by
  unfold freshRef
  exact Nat.lt_succ_of_le (le_foldr_max _ _ hr)

theorem heapGet_heapSet_self (h : DictHeap) (r : Nat) (d : ChildDict) :
    heapGet (heapSet h r d) r = d := by
  simp [heapSet, heapGet]

theorem heapGet_heapSet_ne (h : DictHeap) (r r2 : Nat) (d : ChildDict)
    (hne : r2 ≠ r) : heapGet (heapSet h r2 d) r = heapGet h r := by
  simp [heapSet, heapGet, hne]

/-- Claim C9: get_children returns None exactly when the child dict is
empty; otherwise it returns a fresh reference holding the same entries, and
overwriting that reference with any new contents (adding, removing or
replacing entries) leaves the ingredient's own child dict untouched. -/
theorem claim_C9 (h : DictHeap) (ing : BaseIngredient)
    (hdom : ing.keywords.child_dict ∈ h.map Prod.fst) :
    (heapGet h ing.keywords.child_dict = [] →
       (BaseIngredient.get_children h ing).2 = none) ∧
    (heapGet h ing.keywords.child_dict ≠ [] →
       ∃ r, (BaseIngredient.get_children h ing).2 = some r ∧
         heapGet (BaseIngredient.get_children h ing).1 r
           = heapGet h ing.keywords.child_dict ∧
         ∀ d2, heapGet (heapSet (BaseIngredient.get_children h ing).1 r d2)
             ing.keywords.child_dict = heapGet h ing.keywords.child_dict) := by
  have hne : ing.keywords.child_dict ≠ freshRef h :=
    Nat.ne_of_lt (mem_lt_freshRef h _ hdom)
  constructor
  · intro he
    simp [BaseIngredient.get_children, he]
  · intro he
    refine ⟨freshRef h, ?_, ?_, ?_⟩
    · simp [BaseIngredient.get_children, he]
    · simp [BaseIngredient.get_children, he, heapGet_heapSet_self]
    · intro d2
      have hfold : (BaseIngredient.get_children h ing).1
          = heapSet h (freshRef h) (heapGet h ing.keywords.child_dict) := by
        simp [BaseIngredient.get_children, he]
      rw [hfold, heapGet_heapSet_ne _ _ _ _ (Ne.symm hne),
          heapGet_heapSet_ne _ _ _ _ (Ne.symm hne)]

/-- Claim C9 witness: a heap with one allocated child dict at reference 5;
the copy lands at the fresh reference 6 and mutating it leaves reference 5
unchanged. -/
theorem claim_C9_witness :
    (5 : Nat) ∈ heap1.map Prod.fst ∧
    heapGet heap1 5 ≠ [] ∧
    (BaseIngredient.get_children heap1 ing5).2 = some 6 ∧
    heapGet (BaseIngredient.get_children heap1 ing5).1 6 = [("child1", 7)] ∧
    heapGet (heapSet (BaseIngredient.get_children heap1 ing5).1 6 []) 5
      = [("child1", 7)] := by
  have hmain := claim_C9 heap1 ing5 (by simp [heap1, ing5])
  have h2 := hmain.2 (by simp [heap1, ing5, heapGet])
  obtain ⟨r, hr1, hr2, hr3⟩ := h2
  have hr6 : r = 6 := by
    have hv : (BaseIngredient.get_children heap1 ing5).2 = some 6 := by
      simp [BaseIngredient.get_children, heap1, ing5, heapGet, freshRef]
    rw [hv] at hr1
    exact Option.some_inj.mp hr1.symm
  subst hr6
  refine ⟨by simp [heap1], by simp [heap1, ing5, heapGet], hr1, ?_, ?_⟩
  · rw [hr2]; simp [heap1, ing5, heapGet]
  · simpa [heap1, ing5, heapGet] using hr3 []
